import Mathlib

/-!
Verification development for the cevio library: a Rust binding layer that
drives the CeVIO speech-synthesis application through its COM automation
interface.  The definitions below are a shallow embedding of the five source
files (`com.rs`, `variant_ext.rs`, `initialize.rs`, `error.rs`, `lib.rs`).
External operating-system entry points (CLSIDFromString, CoCreateInstance,
GetActiveObject, GetIDsOfNames, Invoke, CoInitializeEx) are abstracted into
an environment record `ComEnv`; VariantChangeType and VariantClear are given
concrete models of their documented automation semantics since the
extraction claims are about the values they produce.
-/

namespace CevioLib

/-- A COM failure HRESULT, modelled as a numeric code. -/
abbrev HResult := Nat

/-- The object is not running (GetActiveObject failure code). -/
def MK_E_UNAVAILABLE : HResult := 0x800401E3

/-- Automation type-mismatch coercion failure. -/
def DISP_E_TYPEMISMATCH : HResult := 0x80020005

/-- Name not known to GetIDsOfNames. -/
def DISP_E_UNKNOWNNAME : HResult := 0x80020006

/-- Numeric coercion overflow. -/
def DISP_E_OVERFLOW : HResult := 0x8002000A

/-- Class identifiers, opaque in this development. -/
abbrev GUID := Nat

/-- The all-zero interface identifier passed to GetIDsOfNames and Invoke. -/
def GUID.zeroed : GUID := 0

/-- An opaque IUnknown reference. -/
abbrev IUnknown := Nat

/-- An opaque IDispatch reference. -/
abbrev IDispatch := Nat

/-- A dispatch identifier: a signed 32-bit integer in the source. -/
abbrev DispId := Int

/-- Locale used for name resolution (com.rs line 13). -/
def LOCALE_USER_DEFAULT : Nat := 0x400

/-- Locale used for invocation (com.rs line 14). -/
def LOCALE_SYSTEM_DEFAULT : Nat := 0x0800

/-- Invocation kind flags. -/
abbrev DISPATCH_FLAGS := Nat

/-- Method-call invocation flag. -/
def DISPATCH_METHOD : DISPATCH_FLAGS := 1

/-- Property-read invocation flag. -/
def DISPATCH_PROPERTYGET : DISPATCH_FLAGS := 2

/-- Property-write invocation flag. -/
def DISPATCH_PROPERTYPUT : DISPATCH_FLAGS := 4

/-- Activation context flags. -/
abbrev CLSCTX := Nat

/-- All activation contexts (in-process preferred). -/
def CLSCTX_ALL : CLSCTX := 23

/-- Out-of-process (local server) activation only. -/
def CLSCTX_LOCAL_SERVER : CLSCTX := 4

/-- The reserved named-argument identifier marking a property-put value. -/
def DISPID_PROPERTYPUT : DispId := -3

/-- The COM tagged-union value (VARIANT), restricted to the tags this
library constructs: empty (default), null, 32-bit integer, boolean
(payload is the 16-bit VARIANT_BOOL numeric encoding), text, by-reference,
and safearray (the last two with opaque payloads). -/
inductive VARIANT where
  | vEmpty : VARIANT
  | vNull : VARIANT
  | vI4 (lVal : Int) : VARIANT
  | vBool (boolVal : Int) : VARIANT
  | vBStr (bstrVal : String) : VARIANT
  | vByRef (pvarVal : Nat) : VARIANT
  | vArray (parray : Nat) : VARIANT
deriving DecidableEq, Repr

/-- The type tags a change-type coercion can target in this library. -/
inductive VARENUM where
  | VT_EMPTY : VARENUM
  | VT_NULL : VARENUM
  | VT_I4 : VARENUM
  | VT_BSTR : VARENUM
  | VT_BOOL : VARENUM
deriving DecidableEq, Repr

/-- VARIANT_BOOL::from — true is VARIANT_TRUE (-1), false is 0. -/
def VARIANT_BOOL.ofBool (b : Bool) : Int := if b then -1 else 0

/-- VARIANT_BOOL::as_bool — any nonzero encoding reads back as true. -/
def VARIANT_BOOL.as_bool (v : Int) : Bool := v != 0

namespace VARIANT

/-- variant_ext.rs `null`: builds a VT_NULL variant. -/
def null : VARIANT := .vNull

/-- variant_ext.rs `from_i32`: builds a VT_I4 variant with lVal payload. -/
def from_i32 (n : Int) : VARIANT := .vI4 n

/-- variant_ext.rs `from_str`: builds a VT_BSTR variant owning the text. -/
def from_str (s : String) : VARIANT := .vBStr s

/-- variant_ext.rs `from_bool`: builds a VT_BOOL variant holding the
VARIANT_BOOL encoding of the flag. -/
def from_bool (b : Bool) : VARIANT := .vBool (VARIANT_BOOL.ofBool b)

/-- Reading the lVal union field; defined (the payload) only when the tag
is VT_I4, junk (0) otherwise, mirroring an unchecked union read. -/
def readLVal : VARIANT → Int
  | .vI4 n => n
  | _ => 0

/-- Reading the bstrVal union field as text. -/
def readBStr : VARIANT → String
  | .vBStr s => s
  | _ => ""

/-- Reading the boolVal union field. -/
def readBool : VARIANT → Int
  | .vBool v => v
  | _ => 0

end VARIANT

/-- Modelled from the spec: the operating environment's change-type
coercion (`VariantChangeType`), which the extraction functions call and
which is not part of this repository.  Same-tag coercion copies the value
into a fresh variant; empty coerces to zero-like values; numeric, boolean
and text conversions follow the documented automation coercion rules; a
value that cannot be represented in the target tag fails with
DISP_E_TYPEMISMATCH (null converts to nothing). -/
def VariantChangeType (src : VARIANT) (vt : VARENUM) : Except HResult VARIANT :=
  match vt, src with
  | .VT_I4, .vI4 n => .ok (.vI4 n)
  | .VT_I4, .vBool v => .ok (.vI4 (if v = 0 then 0 else -1))
  | .VT_I4, .vEmpty => .ok (.vI4 0)
  | .VT_I4, .vBStr s =>
      match s.toInt? with
      | some n =>
          if -2147483648 ≤ n ∧ n ≤ 2147483647 then .ok (.vI4 n)
          else .error DISP_E_OVERFLOW
      | none => .error DISP_E_TYPEMISMATCH
  | .VT_I4, _ => .error DISP_E_TYPEMISMATCH
  | .VT_BSTR, .vBStr s => .ok (.vBStr s)
  | .VT_BSTR, .vI4 n => .ok (.vBStr (toString n))
  | .VT_BSTR, .vBool v => .ok (.vBStr (if v = 0 then "False" else "True"))
  | .VT_BSTR, .vEmpty => .ok (.vBStr "")
  | .VT_BSTR, _ => .error DISP_E_TYPEMISMATCH
  | .VT_BOOL, .vBool v => .ok (.vBool v)
  | .VT_BOOL, .vI4 n => .ok (.vBool (if n = 0 then 0 else -1))
  | .VT_BOOL, .vEmpty => .ok (.vBool 0)
  | .VT_BOOL, .vBStr s =>
      if s = "True" then .ok (.vBool (-1))
      else if s = "False" then .ok (.vBool 0)
      else
        match s.toInt? with
        | some n => .ok (.vBool (if n = 0 then 0 else -1))
        | none => .error DISP_E_TYPEMISMATCH
  | .VT_BOOL, _ => .error DISP_E_TYPEMISMATCH
  | _, _ => .error DISP_E_TYPEMISMATCH

/-- Modelled from the spec: the operating environment's `VariantClear`,
which releases a tagged value's owned resources; it succeeds on the
well-formed variants this library constructs. -/
def VariantClear (_v : VARIANT) : Except HResult Unit := .ok ()

namespace VARIANT

/-- variant_ext.rs `to_i32`: coerces into a fresh VT_I4 variant via
VariantChangeType, reads the coerced copy's lVal payload, clears the
coerced copy, and returns the integer. -/
def to_i32 (v : VARIANT) : Except HResult Int := do
  let new ← VariantChangeType v .VT_I4
  let n := new.readLVal
  let _ ← VariantClear new
  pure n

/-- variant_ext.rs `to_string`: coerces into a fresh VT_BSTR variant via
VariantChangeType, reads the coerced copy's bstrVal payload as text,
clears the coerced copy, and returns the text. -/
def to_string (v : VARIANT) : Except HResult String := do
  let new ← VariantChangeType v .VT_BSTR
  let str := new.readBStr
  let _ ← VariantClear new
  pure str

/-- variant_ext.rs `to_bool`: coerces into a fresh VT_BOOL variant via
VariantChangeType, reads the coerced copy's boolVal payload as a flag,
clears the coerced copy, and returns the flag. -/
def to_bool (v : VARIANT) : Except HResult Bool := do
  let new ← VariantChangeType v .VT_BOOL
  let b := VARIANT_BOOL.as_bool new.readBool
  let _ ← VariantClear new
  pure b

end VARIANT

/-- The DISPPARAMS argument block handed to Invoke: positional argument
array, named-argument identifier array, and their counts. -/
structure DISPPARAMS where
  rgvarg : List VARIANT
  rgdispidNamedArgs : List DispId
  cArgs : Nat
  cNamedArgs : Nat
deriving DecidableEq, Repr

/-- DISPPARAMS::default() — empty arrays, zero counts. -/
def DISPPARAMS.default : DISPPARAMS :=
  { rgvarg := [], rgdispidNamedArgs := [], cArgs := 0, cNamedArgs := 0 }

/-- The external COM entry points the source calls, abstracted as an
environment record so the embedding can quantify over host behaviour. -/
structure ComEnv where
  clsidFromString : String → Except HResult GUID
  coCreateInstance : GUID → CLSCTX → Except HResult IDispatch
  getActiveObject : GUID → Except HResult (Option IUnknown)
  castToDispatch : IUnknown → Except HResult IDispatch
  getIDsOfNames : IDispatch → GUID → String → Nat → Nat → Except HResult DispId
  invokeRaw : IDispatch → DispId → GUID → Nat → DISPATCH_FLAGS → DISPPARAMS → Except HResult VARIANT
  coInit : Except HResult Unit

/-- com.rs `ComObject`: wraps a single IDispatch reference. -/
structure ComObject where
  disp : IDispatch
deriving DecidableEq, Repr

/-- com.rs `ComObject::new`: resolves the textual identifier to a class
identifier, attempts CoCreateInstance with CLSCTX_ALL, and on failure
falls back to CLSCTX_LOCAL_SERVER. -/
def ComObject.new (env : ComEnv) (id : String) : Except HResult ComObject := do
  let rclsid ← env.clsidFromString id
  let disp ←
    match env.coCreateInstance rclsid CLSCTX_ALL with
    | .ok disp => Except.ok disp
    | .error _ => env.coCreateInstance rclsid CLSCTX_LOCAL_SERVER
  Except.ok { disp := disp }

/-- com.rs `ComObject::get`: resolves the textual identifier, queries the
running-object registry via GetActiveObject (its failure propagates
through the `?` operator), and casts a found object to IDispatch. -/
def ComObject.get (env : ComEnv) (id : String) : Except HResult (Option ComObject) := do
  let rclsid ← env.clsidFromString id
  let ppunk ← env.getActiveObject rclsid
  let disp : Option IDispatch ←
    match ppunk with
    | some unk => do
        let disp ← env.castToDispatch unk
        Except.ok (some disp)
    | none => Except.ok none
  Except.ok (disp.map fun disp => { disp := disp })

/-- com.rs `ComObject::get_id_from_name`: resolves a member name to a
dispatch identifier under LOCALE_USER_DEFAULT. -/
def ComObject.get_id_from_name (env : ComEnv) (o : ComObject) (name : String) : Except HResult DispId :=
  env.getIDsOfNames o.disp GUID.zeroed name 1 LOCALE_USER_DEFAULT

/-- com.rs `ComObject::invoke`: generic Invoke under LOCALE_SYSTEM_DEFAULT
with a zero interface identifier, requesting one result. -/
def ComObject.invoke (env : ComEnv) (o : ComObject) (dispidmember : DispId)
    (pdispparams : DISPPARAMS) (wflags : DISPATCH_FLAGS) : Except HResult VARIANT :=
  env.invokeRaw o.disp dispidmember GUID.zeroed LOCALE_SYSTEM_DEFAULT wflags pdispparams

/-- com.rs `ComObject::get_property`: property read with an optional index
parameter as the sole positional argument. -/
def ComObject.get_property (env : ComEnv) (o : ComObject) (prop : String)
    (param : Option VARIANT) : Except HResult VARIANT := do
  let dispidmember ← o.get_id_from_name env prop
  let args := match param with
    | some param => [param]
    | none => []
  let pdispparams : DISPPARAMS :=
    { DISPPARAMS.default with cArgs := args.length, rgvarg := args }
  o.invoke env dispidmember pdispparams DISPATCH_PROPERTYGET

/-- com.rs `ComObject::set_property`: property write whose positional
arguments are the optional index parameter followed by the value, with
the single named argument DISPID_PROPERTYPUT, invoked with the
property-put flag. -/
def ComObject.set_property (env : ComEnv) (o : ComObject) (prop : String)
    (param : Option VARIANT) (value : VARIANT) : Except HResult Unit := do
  let dispidmember ← o.get_id_from_name env prop
  let args := match param with
    | some param => [param, value]
    | none => [value]
  let named_args := [DISPID_PROPERTYPUT]
  let pdispparams : DISPPARAMS :=
    { rgvarg := args, rgdispidNamedArgs := named_args,
      cArgs := args.length, cNamedArgs := 1 }
  let _ ← o.invoke env dispidmember pdispparams DISPATCH_PROPERTYPUT
  Except.ok ()

/-- com.rs `ComObject::invoke_method`: method call; the caller-order
argument vector is reversed in place before the DISPPARAMS is built. -/
def ComObject.invoke_method (env : ComEnv) (o : ComObject) (method : String)
    (args : List VARIANT) : Except HResult VARIANT := do
  let dispidmember ← o.get_id_from_name env method
  let args := args.reverse
  let pdispparams : DISPPARAMS :=
    { DISPPARAMS.default with cArgs := args.length, rgvarg := args }
  o.invoke env dispidmember pdispparams DISPATCH_METHOD

/-- An anyhow-style error: a stack of context messages (outermost first)
over the root HRESULT failure. -/
structure AnyhowError where
  context : List String
  root : HResult
deriving DecidableEq, Repr

/-- error.rs `CeVIOError`: the single facade error type, a transparent
wrapper around the anyhow error chain. -/
structure CevioError where
  err : AnyhowError
deriving DecidableEq, Repr

/-- Rust `map_err`. -/
def mapErr (f : ε → ε2) : Except ε α → Except ε2 α
  | .ok a => .ok a
  | .error e => .error (f e)

/-- anyhow `?`-conversion of a raw windows error: no context yet. -/
def hresultToAnyhow (e : HResult) : AnyhowError := { context := [], root := e }

/-- anyhow `with_context`: on failure, records the context message over
the root HRESULT; on success, passes the value through untouched. -/
def withContext (msg : String) : Except HResult α → Except AnyhowError α
  | .ok a => .ok a
  | .error e => .error { context := [msg], root := e }

/-- initialize.rs `Initialize`: the COM lifetime guard (renamed to avoid a
name clash); carries no data. -/
structure InitGuard where
deriving DecidableEq, Repr

/-- initialize.rs `Initialize::new`: calls CoInitializeEx, converting a
failure into an anyhow error via the `?` operator. -/
def InitGuard.new (env : ComEnv) : Except AnyhowError InitGuard := do
  let _ ← mapErr hresultToAnyhow env.coInit
  Except.ok {}

/-- lib.rs `CeVIO`: owns the lifetime guard and the talker and controller
object handles. -/
structure Cevio where
  initGuard : InitGuard
  talker : ComObject
  controller : ComObject
deriving DecidableEq, Repr

/-- lib.rs `make_error_message`. -/
def make_error_message (method_name : String) (fn_name : String) : String :=
  "Failed to call `" ++ method_name ++ "` in fn `" ++ fn_name ++ "`"

/-- lib.rs `CeVIO::new`: binds the CeVIO AI talker and controller class
identifiers (identical to new_cevio_ai). -/
def Cevio.new (env : ComEnv) : Except CevioError Cevio := do
  let i ← mapErr CevioError.mk (InitGuard.new env)
  let talker ← mapErr CevioError.mk (mapErr hresultToAnyhow
    (ComObject.new env "CeVIO.Talk.RemoteService2.Talker2"))
  let controller ← mapErr CevioError.mk (mapErr hresultToAnyhow
    (ComObject.new env "CeVIO.Talk.RemoteService2.ServiceControl2"))
  Except.ok { initGuard := i, talker := talker, controller := controller }

/-- lib.rs `CeVIO::new_cevio`: binds the (non-AI) CeVIO talker and
controller class identifiers. -/
def Cevio.new_cevio (env : ComEnv) : Except CevioError Cevio := do
  let i ← mapErr CevioError.mk (InitGuard.new env)
  let talker ← mapErr CevioError.mk (mapErr hresultToAnyhow
    (ComObject.new env "CeVIO.Talk.RemoteService.Talker"))
  let controller ← mapErr CevioError.mk (mapErr hresultToAnyhow
    (ComObject.new env "CeVIO.Talk.RemoteService.ServiceControl"))
  Except.ok { initGuard := i, talker := talker, controller := controller }

/-- lib.rs `CeVIO::new_cevio_ai`: binds the CeVIO AI talker and controller
class identifiers. -/
def Cevio.new_cevio_ai (env : ComEnv) : Except CevioError Cevio := do
  let i ← mapErr CevioError.mk (InitGuard.new env)
  let talker ← mapErr CevioError.mk (mapErr hresultToAnyhow
    (ComObject.new env "CeVIO.Talk.RemoteService2.Talker2"))
  let controller ← mapErr CevioError.mk (mapErr hresultToAnyhow
    (ComObject.new env "CeVIO.Talk.RemoteService2.ServiceControl2"))
  Except.ok { initGuard := i, talker := talker, controller := controller }

/-- Modelled from the spec: the three near-identical construction variants
"exist only to select which pair of class identifiers to bind" and
"should collapse to one constructor parameterized by product variant" —
the common constructor shape, parameterized by the identifier pair, used
to compare the three source constructors. -/
def Cevio.mk_from_ids (env : ComEnv) (talker_id : String) (controller_id : String) :
    Except CevioError Cevio := do
  let i ← mapErr CevioError.mk (InitGuard.new env)
  let talker ← mapErr CevioError.mk (mapErr hresultToAnyhow
    (ComObject.new env talker_id))
  let controller ← mapErr CevioError.mk (mapErr hresultToAnyhow
    (ComObject.new env controller_id))
  Except.ok { initGuard := i, talker := talker, controller := controller }

/-- lib.rs `CeVIO::start_host`: invokes StartHost(no_wait) on the
controller and coerces the result to i32, wrapping each step's failure
with a context naming the step and the facade function. -/
def Cevio.start_host (env : ComEnv) (c : Cevio) (no_wait : Bool) : Except CevioError Int := do
  let v ← mapErr CevioError.mk (withContext (make_error_message "invoke_method" "start_host")
    (c.controller.invoke_method env "StartHost" [VARIANT.from_bool no_wait]))
  mapErr CevioError.mk (withContext (make_error_message "to_i32" "start_host") v.to_i32)

/-- lib.rs `CeVIO::get_host_version`: reads the HostVersion property on
the controller and coerces the result to text. -/
def Cevio.get_host_version (env : ComEnv) (c : Cevio) : Except CevioError String := do
  let v ← mapErr CevioError.mk (withContext (make_error_message "get_property" "get_host_version")
    (c.controller.get_property env "HostVersion" none))
  mapErr CevioError.mk (withContext (make_error_message "to_string" "get_host_version") v.to_string)

/-- lib.rs `CeVIO::get_is_host_started`: reads the InterfaceVersion
property on the controller and coerces the result to a boolean. -/
def Cevio.get_is_host_started (env : ComEnv) (c : Cevio) : Except CevioError Bool := do
  let v ← mapErr CevioError.mk (withContext (make_error_message "get_property" "get_is_host_started")
    (c.controller.get_property env "InterfaceVersion" none))
  mapErr CevioError.mk (withContext (make_error_message "to_bool" "get_is_host_started") v.to_bool)

/-- lib.rs `CeVIO::set_volume`: writes Volume on the talker with the value
passed through from_i32 unchanged. -/
def Cevio.set_volume (env : ComEnv) (c : Cevio) (volume : Int) : Except CevioError Unit :=
  mapErr CevioError.mk (withContext (make_error_message "set_property" "set_volume")
    (c.talker.set_property env "Volume" none (VARIANT.from_i32 volume)))

/-- lib.rs `CeVIO::set_speed`. -/
def Cevio.set_speed (env : ComEnv) (c : Cevio) (speed : Int) : Except CevioError Unit :=
  mapErr CevioError.mk (withContext (make_error_message "set_property" "set_speed")
    (c.talker.set_property env "Speed" none (VARIANT.from_i32 speed)))

/-- lib.rs `CeVIO::set_tone`. -/
def Cevio.set_tone (env : ComEnv) (c : Cevio) (tone : Int) : Except CevioError Unit :=
  mapErr CevioError.mk (withContext (make_error_message "set_property" "set_tone")
    (c.talker.set_property env "Tone" none (VARIANT.from_i32 tone)))

/-- lib.rs `CeVIO::set_tone_scale`. -/
def Cevio.set_tone_scale (env : ComEnv) (c : Cevio) (tone_scale : Int) : Except CevioError Unit :=
  mapErr CevioError.mk (withContext (make_error_message "set_property" "set_tone_scale")
    (c.talker.set_property env "ToneScale" none (VARIANT.from_i32 tone_scale)))

/-- lib.rs `CeVIO::set_alpha`. -/
def Cevio.set_alpha (env : ComEnv) (c : Cevio) (alpha : Int) : Except CevioError Unit :=
  mapErr CevioError.mk (withContext (make_error_message "set_property" "set_alpha")
    (c.talker.set_property env "Alpha" none (VARIANT.from_i32 alpha)))

/-- lib.rs `CeVIO::speak`: invokes Speak(text) on the talker, discarding
the speaking-state result. -/
def Cevio.speak (env : ComEnv) (c : Cevio) (text : String) : Except CevioError Unit := do
  let _ ← mapErr CevioError.mk (withContext (make_error_message "invoke_method" "speak")
    (c.talker.invoke_method env "Speak" [VARIANT.from_str text]))
  Except.ok ()

/-- lib.rs `CeVIO::output_wave_to_file`: invokes OutputWaveToFile(text,
path) on the talker; note the context message names fn "speak" exactly as
the source does on lib.rs line 379. -/
def Cevio.output_wave_to_file (env : ComEnv) (c : Cevio) (text : String) (path : String) :
    Except CevioError Unit := do
  let _ ← mapErr CevioError.mk (withContext (make_error_message "invoke_method" "speak")
    (c.talker.invoke_method env "OutputWaveToFile"
      [VARIANT.from_str text, VARIANT.from_str path]))
  Except.ok ()

/-- Decidable equality of results, so concrete runs can be checked by
evaluation. -/
instance [DecidableEq ε] [DecidableEq α] : DecidableEq (Except ε α) := fun x y =>
  match x, y with
  | .ok a, .ok b =>
      if h : a = b then .isTrue (by rw [h])
      else .isFalse (fun hh => h (Except.ok.inj hh))
  | .error a, .error b =>
      if h : a = b then .isTrue (by rw [h])
      else .isFalse (fun hh => h (Except.error.inj hh))
  | .ok _, .error _ => .isFalse (fun hh => Except.noConfusion hh)
  | .error _, .ok _ => .isFalse (fun hh => Except.noConfusion hh)

/-- Whether a result is a success. -/
def isSuccess : Except ε α → Bool
  | .ok _ => true
  | .error _ => false

/-- A running-object table with no registered instance of any class. -/
def emptyRot : GUID → Option IUnknown := fun _ => none

/-- Modelled from the spec: the operating environment's running-object
lookup (`GetActiveObject`), which is not part of this repository.  Per its
documented contract it returns the registered object of the class when one
is running and fails with MK_E_UNAVAILABLE when none is registered; on
success the out parameter is always filled. -/
def osGetActiveObject (rot : GUID → Option IUnknown) (rclsid : GUID) :
    Except HResult (Option IUnknown) :=
  match rot rclsid with
  | some unk => .ok (some unk)
  | none => .error MK_E_UNAVAILABLE

/-- A host environment in which every external call succeeds trivially. -/
def okEnv : ComEnv where
  clsidFromString := fun _ => .ok 1
  coCreateInstance := fun _ _ => .ok 1
  getActiveObject := fun _ => .ok (some 1)
  castToDispatch := fun unk => .ok unk
  getIDsOfNames := fun _ _ _ _ _ => .ok 1
  invokeRaw := fun _ _ _ _ _ _ => .ok .vEmpty
  coInit := .ok ()

/-- okEnv, except the running-object table is empty and GetActiveObject
follows its documented contract. -/
def noRunningEnv : ComEnv :=
  { okEnv with getActiveObject := osGetActiveObject emptyRot }

/-- okEnv, except name resolution rejects every member name. -/
def failingNameEnv : ComEnv :=
  { okEnv with getIDsOfNames := fun _ _ _ _ _ => .error DISP_E_UNKNOWNNAME }

/-- okEnv, except activation succeeds only for the out-of-process local
server context and fails for the preferred first attempt. -/
def fallbackEnv : ComEnv :=
  { okEnv with coCreateInstance := fun _ ctx =>
      if ctx = CLSCTX_LOCAL_SERVER then .ok 42 else .error 5 }

/-- okEnv, except the only member name the host knows is
InterfaceVersion, whose invocation yields the integer 4. -/
def onlyInterfaceVersionEnv : ComEnv :=
  { okEnv with
    getIDsOfNames := fun _ _ name _ _ =>
      if name = "InterfaceVersion" then .ok 1 else .error DISP_E_UNKNOWNNAME,
    invokeRaw := fun _ _ _ _ _ _ => .ok (.vI4 4) }

/-- A concrete facade instance used to run facade operations against the
witness environments. -/
def someCevio : Cevio where
  initGuard := {}
  talker := { disp := 1 }
  controller := { disp := 2 }

/-! Theorems. -/

/-- Helper: binding a success result applies the continuation. -/
theorem exbind_ok (a : α) (f : α → Except ε β) :
    (Bind.bind (Except.ok a) f : Except ε β) = f a := rfl

/-- Helper: binding a failure result propagates the failure. -/
theorem exbind_error (e : ε) (f : α → Except ε β) :
    (Bind.bind (Except.error e) f : Except ε β) = Except.error e := rfl

/-- C1: for every method name and caller-supplied argument list,
invoke_method reverses the caller-order list before building the
DISPPARAMS — the invocation argument array is the reverse of the caller
list and the argument count is the list's length; in particular caller
arguments [a, b, c] are invoked as [c, b, a]. -/
theorem invoke_method_reverses_arguments :
    (∀ (env : ComEnv) (o : ComObject) (method : String) (args : List VARIANT),
      o.invoke_method env method args = do
        let dispidmember ← o.get_id_from_name env method
        o.invoke env dispidmember
          { rgvarg := args.reverse, rgdispidNamedArgs := [],
            cArgs := args.length, cNamedArgs := 0 } DISPATCH_METHOD)
    ∧ (∀ (env : ComEnv) (o : ComObject) (method : String) (a b c : VARIANT),
      o.invoke_method env method [a, b, c] = do
        let dispidmember ← o.get_id_from_name env method
        o.invoke env dispidmember
          { rgvarg := [c, b, a], rgdispidNamedArgs := [],
            cArgs := 3, cNamedArgs := 0 } DISPATCH_METHOD) := by
  constructor
  · intro env o method args
    simp [ComObject.invoke_method, DISPPARAMS.default]
  · intro env o method a b c
    simp [ComObject.invoke_method, DISPPARAMS.default]

/-- C2: for every property name, optional index parameter, and value,
set_property builds a DISPPARAMS whose named-argument list is exactly
[DISPID_PROPERTYPUT] (marking the value as the distinguished property-put
argument), whose positional arguments are the optional index parameter
followed by the value, and performs the invoke with the property-put
flag. -/
theorem set_property_marks_propertyput :
    ∀ (env : ComEnv) (o : ComObject) (prop : String) (param : Option VARIANT)
      (value : VARIANT),
      o.set_property env prop param value =
        (do
          let dispidmember ← o.get_id_from_name env prop
          let _ ← o.invoke env dispidmember
            { rgvarg := param.toList ++ [value],
              rgdispidNamedArgs := [DISPID_PROPERTYPUT],
              cArgs := param.toList.length + 1, cNamedArgs := 1 }
            DISPATCH_PROPERTYPUT
          Except.ok ()) := by
  intro env o prop param value
  cases param <;> simp [ComObject.set_property, Option.toList]

/-- C5: every native scalar round-trips through tagged-value construction
then extraction — every i32 through from_i32 then to_i32, every bool
through from_bool then to_bool, every string through from_str then
to_string. -/
theorem variant_scalar_roundtrip :
    (∀ n : Int, -2147483648 ≤ n → n ≤ 2147483647 →
      (VARIANT.from_i32 n).to_i32 = .ok n)
    ∧ (∀ b : Bool, (VARIANT.from_bool b).to_bool = .ok b)
    ∧ (∀ s : String, (VARIANT.from_str s).to_string = .ok s) := by
  refine ⟨fun n _ _ => rfl, fun b => ?_, fun s => rfl⟩
  cases b <;> rfl

/-- C5 witness: the round-trip evaluated at the boundary values — zero,
negative, the extreme representable integers, both boolean states, and
empty text. -/
theorem variant_scalar_roundtrip_witness :
    (VARIANT.from_i32 2147483647).to_i32 = .ok 2147483647
    ∧ (VARIANT.from_i32 (-2147483648)).to_i32 = .ok (-2147483648)
    ∧ (VARIANT.from_i32 0).to_i32 = .ok 0
    ∧ (VARIANT.from_i32 (-1)).to_i32 = .ok (-1)
    ∧ (VARIANT.from_bool true).to_bool = .ok true
    ∧ (VARIANT.from_bool false).to_bool = .ok false
    ∧ (VARIANT.from_str "").to_string = .ok "" :=
  ⟨variant_scalar_roundtrip.1 2147483647 (by decide) (by decide),
   variant_scalar_roundtrip.1 (-2147483648) (by decide) (by decide),
   variant_scalar_roundtrip.1 0 (by decide) (by decide),
   variant_scalar_roundtrip.1 (-1) (by decide) (by decide),
   variant_scalar_roundtrip.2.1 true,
   variant_scalar_roundtrip.2.1 false,
   variant_scalar_roundtrip.2.2 ""⟩

/-- C6: each extraction depends on the source value only through the
change-type coercion into the target tag (it never reads the payload
under the source tag), a failed coercion propagates as that coercion
error with no panic, and in particular null and safearray values yield
DISP_E_TYPEMISMATCH for integer extraction and a by-reference value
yields DISP_E_TYPEMISMATCH for boolean extraction. -/
theorem extraction_coerces_before_reading :
    (∀ v w : VARIANT, VariantChangeType v .VT_I4 = VariantChangeType w .VT_I4 →
      v.to_i32 = w.to_i32)
    ∧ (∀ v w : VARIANT, VariantChangeType v .VT_BSTR = VariantChangeType w .VT_BSTR →
      v.to_string = w.to_string)
    ∧ (∀ v w : VARIANT, VariantChangeType v .VT_BOOL = VariantChangeType w .VT_BOOL →
      v.to_bool = w.to_bool)
    ∧ (∀ (v : VARIANT) (e : HResult), VariantChangeType v .VT_I4 = .error e →
      v.to_i32 = .error e)
    ∧ (∀ (v : VARIANT) (e : HResult), VariantChangeType v .VT_BSTR = .error e →
      v.to_string = .error e)
    ∧ (∀ (v : VARIANT) (e : HResult), VariantChangeType v .VT_BOOL = .error e →
      v.to_bool = .error e)
    ∧ VARIANT.to_i32 .vNull = .error DISP_E_TYPEMISMATCH
    ∧ VARIANT.to_i32 (.vArray 7) = .error DISP_E_TYPEMISMATCH
    ∧ VARIANT.to_bool (.vByRef 3) = .error DISP_E_TYPEMISMATCH := by
  refine ⟨?_, ?_, ?_, ?_, ?_, ?_, rfl, rfl, ?_⟩
  · intro v w h
    unfold VARIANT.to_i32
    rw [h]
  · intro v w h
    unfold VARIANT.to_string
    rw [h]
  · intro v w h
    unfold VARIANT.to_bool
    rw [h]
  · intro v e h
    unfold VARIANT.to_i32
    rw [h, exbind_error]
  · intro v e h
    unfold VARIANT.to_string
    rw [h, exbind_error]
  · intro v e h
    unfold VARIANT.to_bool
    rw [h, exbind_error]
  · rfl

/-- C6 witness: the coercion-invariance components applied to concrete
values whose coercions agree, and the error components applied to the
null value. -/
theorem extraction_coerces_before_reading_witness :
    VARIANT.to_i32 .vEmpty = VARIANT.to_i32 (.vI4 0)
    ∧ VARIANT.to_string .vEmpty = VARIANT.to_string (.vBStr "")
    ∧ VARIANT.to_bool .vEmpty = VARIANT.to_bool (.vBool 0)
    ∧ VARIANT.to_i32 .vNull = .error DISP_E_TYPEMISMATCH
    ∧ VARIANT.to_string .vNull = .error DISP_E_TYPEMISMATCH
    ∧ VARIANT.to_bool .vNull = .error DISP_E_TYPEMISMATCH :=
  ⟨extraction_coerces_before_reading.1 .vEmpty (.vI4 0) rfl,
   extraction_coerces_before_reading.2.1 .vEmpty (.vBStr "") rfl,
   extraction_coerces_before_reading.2.2.1 .vEmpty (.vBool 0) rfl,
   extraction_coerces_before_reading.2.2.2.1 .vNull DISP_E_TYPEMISMATCH rfl,
   extraction_coerces_before_reading.2.2.2.2.1 .vNull DISP_E_TYPEMISMATCH rfl,
   extraction_coerces_before_reading.2.2.2.2.2.1 .vNull DISP_E_TYPEMISMATCH rfl⟩

/-- C3: counter to the claim, when no running instance of the class is
registered the attach operation does not return the absence value —
GetActiveObject fails with MK_E_UNAVAILABLE and the `?` operator
propagates it, so ComObject::get returns that error, not Ok(None). -/
theorem get_propagates_unavailable_when_not_running :
    ComObject.get noRunningEnv "CeVIO.Talk.RemoteService2.Talker2"
      = .error MK_E_UNAVAILABLE
    ∧ ComObject.get noRunningEnv "CeVIO.Talk.RemoteService2.Talker2"
      ≠ .ok none := by
  refine ⟨rfl, ?_⟩
  intro h
  rw [show ComObject.get noRunningEnv "CeVIO.Talk.RemoteService2.Talker2"
      = .error MK_E_UNAVAILABLE from rfl] at h
  exact Except.noConfusion h

/-- C4: counter to the claim, when the underlying invocation inside
output_wave_to_file fails, the context message wraps the failure with the
operation name "speak", not the function's own name
"output_wave_to_file" (lib.rs line 379), though the failure is unified
into the single CeVIOError type. -/
theorem output_wave_to_file_context_names_speak :
    Cevio.output_wave_to_file failingNameEnv someCevio "text" "path"
      = .error { err := { context := [make_error_message "invoke_method" "speak"],
                          root := DISP_E_UNKNOWNNAME } }
    ∧ make_error_message "invoke_method" "speak"
      ≠ make_error_message "invoke_method" "output_wave_to_file"
    ∧ Cevio.speak failingNameEnv someCevio "text"
      = .error { err := { context := [make_error_message "invoke_method" "speak"],
                          root := DISP_E_UNKNOWNNAME } } := by
  refine ⟨rfl, ?_, rfl⟩
  decide

/-- C7: ComObject::new first resolves the identifier (propagating a
resolution failure), then attempts creation with the preferred CLSCTX_ALL
context; if that first attempt fails it falls back to CLSCTX_LOCAL_SERVER;
it returns a handle when either attempt succeeds and the fallback's error
when both fail. -/
theorem com_new_inproc_then_local_fallback :
    (∀ (env : ComEnv) (id : String) (e : HResult),
      env.clsidFromString id = .error e → ComObject.new env id = .error e)
    ∧ (∀ (env : ComEnv) (id : String) (g : GUID) (d : IDispatch),
      env.clsidFromString id = .ok g →
      env.coCreateInstance g CLSCTX_ALL = .ok d →
      ComObject.new env id = .ok { disp := d })
    ∧ (∀ (env : ComEnv) (id : String) (g : GUID) (e1 : HResult) (d : IDispatch),
      env.clsidFromString id = .ok g →
      env.coCreateInstance g CLSCTX_ALL = .error e1 →
      env.coCreateInstance g CLSCTX_LOCAL_SERVER = .ok d →
      ComObject.new env id = .ok { disp := d })
    ∧ (∀ (env : ComEnv) (id : String) (g : GUID) (e1 e2 : HResult),
      env.clsidFromString id = .ok g →
      env.coCreateInstance g CLSCTX_ALL = .error e1 →
      env.coCreateInstance g CLSCTX_LOCAL_SERVER = .error e2 →
      ComObject.new env id = .error e2) := by
  refine ⟨?_, ?_, ?_, ?_⟩
  · intro env id e h
    unfold ComObject.new
    rw [h, exbind_error]
  · intro env id g d h1 h2
    unfold ComObject.new
    rw [h1, exbind_ok, h2]
    rfl
  · intro env id g e1 d h1 h2 h3
    unfold ComObject.new
    rw [h1, exbind_ok, h2, h3]
    rfl
  · intro env id g e1 e2 h1 h2 h3
    unfold ComObject.new
    rw [h1, exbind_ok, h2, h3]
    rfl

/-- C7 witness: in an environment where the preferred activation fails
and the local-server activation yields dispatch reference 42, creation
succeeds with that handle. -/
theorem com_new_inproc_then_local_fallback_witness :
    ComObject.new fallbackEnv "CeVIO.Talk.RemoteService2.Talker2"
      = .ok { disp := 42 } :=
  com_new_inproc_then_local_fallback.2.2.1 fallbackEnv
    "CeVIO.Talk.RemoteService2.Talker2" 1 5 42 rfl (by decide) (by decide)

/-- C8: the five facade setters perform no local range validation: each
equals the bare wrapped property write of from_i32 of the unchanged
value, each succeeds exactly when the underlying property write succeeds,
and out-of-range values (150, -1, 101, -50, the extreme i32 values) all
succeed against a host that accepts them. -/
theorem facade_setters_no_local_validation :
    (∀ (env : ComEnv) (c : Cevio) (volume : Int),
      Cevio.set_volume env c volume =
        mapErr CevioError.mk (withContext (make_error_message "set_property" "set_volume")
          (c.talker.set_property env "Volume" none (VARIANT.from_i32 volume))))
    ∧ (∀ (env : ComEnv) (c : Cevio) (speed : Int),
      Cevio.set_speed env c speed =
        mapErr CevioError.mk (withContext (make_error_message "set_property" "set_speed")
          (c.talker.set_property env "Speed" none (VARIANT.from_i32 speed))))
    ∧ (∀ (env : ComEnv) (c : Cevio) (tone : Int),
      Cevio.set_tone env c tone =
        mapErr CevioError.mk (withContext (make_error_message "set_property" "set_tone")
          (c.talker.set_property env "Tone" none (VARIANT.from_i32 tone))))
    ∧ (∀ (env : ComEnv) (c : Cevio) (tone_scale : Int),
      Cevio.set_tone_scale env c tone_scale =
        mapErr CevioError.mk (withContext (make_error_message "set_property" "set_tone_scale")
          (c.talker.set_property env "ToneScale" none (VARIANT.from_i32 tone_scale))))
    ∧ (∀ (env : ComEnv) (c : Cevio) (alpha : Int),
      Cevio.set_alpha env c alpha =
        mapErr CevioError.mk (withContext (make_error_message "set_property" "set_alpha")
          (c.talker.set_property env "Alpha" none (VARIANT.from_i32 alpha))))
    ∧ (∀ (env : ComEnv) (c : Cevio) (v : Int),
      isSuccess (Cevio.set_volume env c v) =
        isSuccess (c.talker.set_property env "Volume" none (VARIANT.from_i32 v)))
    ∧ (∀ (env : ComEnv) (c : Cevio) (v : Int),
      isSuccess (Cevio.set_alpha env c v) =
        isSuccess (c.talker.set_property env "Alpha" none (VARIANT.from_i32 v)))
    ∧ Cevio.set_volume okEnv someCevio 150 = .ok ()
    ∧ Cevio.set_volume okEnv someCevio (-1) = .ok ()
    ∧ Cevio.set_speed okEnv someCevio 101 = .ok ()
    ∧ Cevio.set_tone okEnv someCevio (-50) = .ok ()
    ∧ Cevio.set_tone_scale okEnv someCevio 2147483647 = .ok ()
    ∧ Cevio.set_alpha okEnv someCevio (-2147483648) = .ok () := by
  refine ⟨fun env c v => rfl, fun env c v => rfl, fun env c v => rfl,
    fun env c v => rfl, fun env c v => rfl, ?_, ?_, rfl, rfl, rfl, rfl, rfl, rfl⟩
  · intro env c v
    cases h : c.talker.set_property env "Volume" none (VARIANT.from_i32 v) <;>
      simp [Cevio.set_volume, mapErr, withContext, isSuccess, h]
  · intro env c v
    cases h : c.talker.set_property env "Alpha" none (VARIANT.from_i32 v) <;>
      simp [Cevio.set_alpha, mapErr, withContext, isSuccess, h]

/-- C9: get_is_host_started performs a property read of the member named
InterfaceVersion on the controller handle and coerces the result to a
boolean; against a host that knows only the member InterfaceVersion (and
rejects an IsHostStarted-style name) the operation still succeeds. -/
theorem get_is_host_started_reads_interface_version :
    (∀ (env : ComEnv) (c : Cevio),
      Cevio.get_is_host_started env c =
        (do
          let v ← mapErr CevioError.mk
            (withContext (make_error_message "get_property" "get_is_host_started")
              (c.controller.get_property env "InterfaceVersion" none))
          mapErr CevioError.mk
            (withContext (make_error_message "to_bool" "get_is_host_started")
              v.to_bool)))
    ∧ Cevio.get_is_host_started onlyInterfaceVersionEnv someCevio = .ok true
    ∧ onlyInterfaceVersionEnv.getIDsOfNames someCevio.controller.disp GUID.zeroed
        "IsHostStarted" 1 LOCALE_USER_DEFAULT = .error DISP_E_UNKNOWNNAME := by
  refine ⟨fun env c => rfl, ?_, ?_⟩ <;> decide

/-- C10: CeVIO::new and CeVIO::new_cevio_ai are extensionally equal, and
all three constructors are the common constructor shape applied to their
identifier pair — new and new_cevio_ai bind the RemoteService2 Talker2
and ServiceControl2 identifiers while new_cevio differs only in binding
the RemoteService Talker and ServiceControl identifiers. -/
theorem constructors_bind_same_ids :
    (∀ env : ComEnv, Cevio.new env = Cevio.new_cevio_ai env)
    ∧ (∀ env : ComEnv, Cevio.new env =
        Cevio.mk_from_ids env "CeVIO.Talk.RemoteService2.Talker2"
          "CeVIO.Talk.RemoteService2.ServiceControl2")
    ∧ (∀ env : ComEnv, Cevio.new_cevio_ai env =
        Cevio.mk_from_ids env "CeVIO.Talk.RemoteService2.Talker2"
          "CeVIO.Talk.RemoteService2.ServiceControl2")
    ∧ (∀ env : ComEnv, Cevio.new_cevio env =
        Cevio.mk_from_ids env "CeVIO.Talk.RemoteService.Talker"
          "CeVIO.Talk.RemoteService.ServiceControl") :=
  ⟨fun _ => rfl, fun _ => rfl, fun _ => rfl, fun _ => rfl⟩

end CevioLib
